import Mathlib

/-!
Verification of the two-tier media-result cache of `tg-ytdlp-bot`
(`DATABASE/cache_db.py`), as a shallow embedding in Lean 4.

The local snapshot (the JSON mirror of the remote Firebase tree) is embedded
as a JSON-like inductive value `JVal`.  The public cache operations of
`cache_db.py` are embedded as pure functions that take the snapshot and the
externally supplied URL rewriters as parameters and return their result
together with a trace of observable effects (local-snapshot lookups and
remote store writes/removes).  External collaborators that the module merely
calls (URL normalization, the subtitle-policy predicates, the MD5 hash of
`hashlib`) are abstract function parameters, exactly as the specification
scopes them ("treated as pure functions supplied externally").
-/

/-- A JSON value: the shape of the local Firebase snapshot
(`firebase_cache` in `cache_db.py`, loaded with `json.load`). -/
inductive JVal where
  | null : JVal
  | bool : Bool → JVal
  | num : Int → JVal
  | str : String → JVal
  | arr : List JVal → JVal
  | obj : List (String × JVal) → JVal
deriving Repr

/-- Python `x is None` on a JSON value. -/
def jIsNull : JVal → Bool
  | .null => true
  | _ => false

/-- Python truthiness (`if x:`) of a JSON value. -/
def jTruthy : JVal → Bool
  | .null => false
  | .bool b => b
  | .num n => n != 0
  | .str s => !s.isEmpty
  | .arr xs => !xs.isEmpty
  | .obj fs => !fs.isEmpty

/-- `get_from_local_cache(path_parts)` (cache_db.py lines 154-169): walks the
snapshot along the path; each step requires the current node to be a dict
(`isinstance(current, dict)`) containing the segment, otherwise the walk
returns `None` (here `none`). -/
def getFromLocalCache : JVal → List String → Option JVal
  | cur, [] => some cur
  | .obj fields, p :: rest =>
      match fields.lookup p with
      | some v => getFromLocalCache v rest
      | none => none
  | _, _ :: _ => none

/-- Observable effects of a cache operation: a lookup in the local snapshot
(every `get_from_local_cache` call is logged by the code), a call into the
external URL canonicalizer, and the remote tree-store writes/removes
(`db.child(...).set/remove`).  Remote paths are kept as segment lists. -/
inductive Effect where
  | localLookup : List String → Effect
  | canonicalize : String → Effect
  | remoteSet : List String → String → Effect
  | remoteRemove : List String → Effect
deriving Repr, DecidableEq, BEq

def Effect.isRemote : Effect → Bool
  | .remoteSet _ _ => true
  | .remoteRemove _ => true
  | _ => false

/-- Decimal digit test, as used by `int(...)` on the strings this module
feeds it (quality heights, cached message ids). -/
def isDigitChar (c : Char) : Bool := ('0' ≤ c && c ≤ '9')

def digitsVal (cs : List Char) : Nat :=
  cs.foldl (fun acc c => 10 * acc + (c.toNat - '0'.toNat)) 0

/-- Python `int(s)` restricted to the strings that occur in this module:
an optional minus sign followed by a non-empty run of decimal digits parses,
anything else raises (returns `none`).  (Python's `int` additionally accepts
surrounding whitespace and a plus sign; such strings never reach these call
sites, which parse stored message ids and `p`-suffixed quality heights.) -/
def parseIntStr (s : String) : Option Int :=
  match s.toList with
  | [] => none
  | '-' :: rest =>
      if !rest.isEmpty && rest.all isDigitChar then some (-(digitsVal rest : Int)) else none
  | cs =>
      if cs.all isDigitChar then some (digitsVal cs : Int) else none

/-- Python `int(x)` applied to a JSON value (`int(arr[index])` in
`get_cached_playlist_videos`): numbers and booleans convert, strings parse,
everything else raises (`none`). -/
def pyToInt : JVal → Option Int
  | .num n => some n
  | .bool b => some (if b then 1 else 0)
  | .str s => parseIntStr s
  | _ => none

/-- Python `set(urls)` in the iteration `for u in set(urls)`: the list of
distinct URL forms.  (A Python set iterates in an unspecified order; we keep
the first-occurrence order.  No property proved below depends on the order.) -/
def pyDedup (urls : List String) : List String := urls.eraseDups

/-- The externally supplied URL machinery, scoped by the spec as pure
functions: `normalize_url_for_cache`, `strip_range_from_url` (module
`URL_PARSERS.normalizer`, not part of this repository snapshot),
`is_youtube_url` / `youtube_to_short_url` / `youtube_to_long_url`
(`URL_PARSERS.youtube`), and `get_url_hash` (an MD5 hex digest via the
external `hashlib`, treated as an opaque key deriver). -/
structure UrlEnv where
  normalize : String → String
  stripRange : String → String
  isYoutube : String → Bool
  toShort : String → String
  toLong : String → String
  urlHash : String → String

/-- The candidate URL forms built by `save_to_video_cache` /
`get_cached_message_ids` (no range stripping): the normalized input plus,
for YouTube URLs, the normalized short and long forms; deduplicated. -/
def videoUrlForms (env : UrlEnv) (url : String) : List String :=
  pyDedup ([env.normalize url] ++
    (if env.isYoutube url then
      [env.normalize (env.toShort url), env.normalize (env.toLong url)]
    else []))

/-- The candidate URL forms built by the playlist-cache operations: as
`videoUrlForms` but every form is range-stripped before normalization. -/
def playlistUrlForms (env : UrlEnv) (url : String) : List String :=
  pyDedup ([env.normalize (env.stripRange url)] ++
    (if env.isYoutube url then
      [env.normalize (env.stripRange (env.toShort url)),
       env.normalize (env.stripRange (env.toLong url))]
    else []))

/-- The canonicalize-effect trace for a list of URL forms. -/
def canonEffects (urls : List String) : List Effect :=
  urls.map Effect.canonicalize

/-! ## Reload scheduler boundary computation -/

/-- `get_next_reload_time(interval_hours)` (cache_db.py lines 65-78), with
the current wall-clock instant given as microseconds since local midnight
(`(now - midnight).total_seconds()` carries microsecond precision).  Returns
the next boundary, again as microseconds since midnight:
`midnight + (intervals_passed + 1) * interval_seconds` where
`intervals_passed = seconds_since_midnight // interval_seconds`. -/
def get_next_reload_time (intervalHours : Nat) (nowMicros : Nat) : Nat :=
  let intervalMicros := intervalHours * 3600 * 1000000
  let intervalsPassed := nowMicros / intervalMicros
  (intervalsPassed + 1) * intervalMicros

/-- Microseconds since midnight of a wall-clock `h:m`. -/
def hmMicros (h m : Nat) : Nat := (h * 3600 + m * 60) * 1000000

/-! ## Quality key candidates -/

/-- The "popular" height buckets, in increasing order. -/
def popularBuckets : List Nat := [144, 240, 360, 480, 540, 720, 1080, 1440, 2160, 4320]

/-- Modelled from the spec: `ceil_to_popular` lives in `HELPERS/qualifier.py`,
which is not part of this repository snapshot; per the spec's Quality Key
Normalizer ("rounding-up to nearest known bucket", e.g. 703 ↦ 720) it maps a
height to the smallest popular bucket that is not smaller, and leaves the
height unchanged when no such bucket exists. -/
def ceil_to_popular (h : Nat) : Nat :=
  match popularBuckets.find? (fun b => h ≤ b) with
  | some b => b
  | none => h

/-- The height parse performed by the playlist readers on a quality key:
`quality_key.endswith('p')` and `int(quality_key[:-1])` succeeds.
(Heights stored in quality keys are plain digit runs.) -/
def parseHeight (q : String) : Option Nat :=
  let cs := q.toList
  match cs.getLast? with
  | some 'p' =>
      let body := cs.dropLast
      if !body.isEmpty && body.all isDigitChar then some (digitsVal body) else none
  | _ => none

/-- The ordered quality-fallback candidate list built identically by
`get_cached_playlist_videos` (lines 281-289) and `get_cached_playlist_count`
(lines 374-382): the exact requested key, then — when the key is a
`p`-suffixed height and the rounded-up popular bucket differs — that
rounded bucket. -/
def qualityCandidates (q : String) : List String :=
  match parseHeight q with
  | some h =>
      let rounded := toString (ceil_to_popular h) ++ "p"
      if rounded ≠ q then [q, rounded] else [q]
  | none => [q]

/-! ## Playlist count: the two path logics -/

/-- The fast-path count of `get_cached_playlist_count` (lines 393-398), used
when more than 100 indices are requested:
`sum(1 for index in indices if index < len(arr) and arr[index] is not None)`. -/
def fastPassCount (arr : List JVal) (indices : List Nat) : Nat :=
  indices.countP
    (fun i => decide (i < arr.length) && !jIsNull (arr.getD i JVal.null))

/-- The slow-path per-index count of `get_cached_playlist_count`
(lines 402-413), used when at most 100 indices are requested: walks the
indices one at a time (logging each hit) and increments the count when
`index < len(arr) and arr[index] is not None`. -/
def slowPassCount (arr : List JVal) (indices : List Nat) : Nat :=
  match indices with
  | [] => 0
  | i :: rest =>
      (if decide (i < arr.length) && !jIsNull (arr.getD i JVal.null) then 1 else 0) +
        slowPassCount arr rest

/-- The `indices is None` count (line 417): all non-`None` entries,
`sum(1 for item in arr if item is not None)`. -/
def allEntriesCount (arr : List JVal) : Nat :=
  (arr.filter (fun item => !jIsNull item)).length

/-- One step of `get_cached_playlist_count`'s candidate loop (lines 385-425)
at a single local path: looks the path up; a non-list value contributes
nothing; on a list the requested-index mode either returns immediately with
the fast count (more than 100 indices) or accumulates the slow count, and
the no-indices mode accumulates the count of all non-`None` entries; an
accumulated positive count is returned, a zero count falls through to the
next candidate, and exhaustion returns 0. -/
def countLoop (snapshot : JVal) (indices : Option (List Nat)) :
    List (List String) → Nat → Nat × List Effect
  | [], _ => (0, [])
  | path :: rest, acc =>
      match getFromLocalCache snapshot path with
      | some (JVal.arr a) =>
          match indices with
          | some is =>
              if is.length > 100 then
                (fastPassCount a is, [Effect.localLookup path])
              else
                if acc + slowPassCount a is > 0 then
                  (acc + slowPassCount a is, [Effect.localLookup path])
                else
                  ((countLoop snapshot indices rest (acc + slowPassCount a is)).1,
                   Effect.localLookup path ::
                     (countLoop snapshot indices rest (acc + slowPassCount a is)).2)
          | none =>
              if allEntriesCount a > 0 then
                (allEntriesCount a, [Effect.localLookup path])
              else
                ((countLoop snapshot indices rest (allEntriesCount a)).1,
                 Effect.localLookup path ::
                   (countLoop snapshot indices rest (allEntriesCount a)).2)
      | _ =>
          ((countLoop snapshot indices rest acc).1,
           Effect.localLookup path :: (countLoop snapshot indices rest acc).2)

/-- The local snapshot path of the playlist record for one URL form and one
quality candidate: `["bot", "video_cache", "playlists", url_hash, qk]`. -/
def playlistLocalPath (env : UrlEnv) (u qk : String) : List String :=
  ["bot", "video_cache", "playlists", env.urlHash u, qk]

/-- All (URL-form, quality-candidate) local paths probed by the playlist
readers, in probe order. -/
def playlistProbePaths (env : UrlEnv) (url quality : String) : List (List String) :=
  (playlistUrlForms env url).flatMap
    (fun u => (qualityCandidates quality).map (fun qk => playlistLocalPath env u qk))

/-- `get_cached_playlist_count(playlist_url, quality_key, indices)`
(cache_db.py lines 362-431): builds the URL forms and quality candidates and
runs the candidate loop; any escaping exception would yield 0 (none can in
this embedding, all indices being natural numbers). -/
def get_cached_playlist_count (env : UrlEnv) (snapshot : JVal)
    (url quality : String) (indices : Option (List Nat)) : Nat × List Effect :=
  ((countLoop snapshot indices (playlistProbePaths env url quality) 0).1,
   canonEffects (playlistUrlForms env url) ++
     (countLoop snapshot indices (playlistProbePaths env url quality) 0).2)

/-! ## Playlist videos read -/

/-- Python dict assignment `found[index] = v`: replace an existing binding,
otherwise append. -/
def upsert (m : List (Nat × Int)) (k : Nat) (v : Int) : List (Nat × Int) :=
  if m.any (fun p => p.1 == k) then
    m.map (fun p => if p.1 == k then (k, v) else p)
  else m ++ [(k, v)]

/-- The per-array index scan of `get_cached_playlist_videos` (lines 303-312):
for each requested index, when `index < len(arr) and arr[index]` holds,
`found[index] = int(arr[index])`; a failing `int` conversion is caught by the
per-index handler and skipped. -/
def scanArr (arr : List JVal) : List Nat → List (Nat × Int) → List (Nat × Int)
  | [], found => found
  | i :: rest, found =>
      scanArr arr rest
        (if decide (i < arr.length) && jTruthy (arr.getD i JVal.null) then
          match pyToInt (arr.getD i JVal.null) with
          | some v => upsert found i v
          | none => found
        else found)

/-- The candidate loop of `get_cached_playlist_videos` (lines 294-319): for
each probed local path, a list value is scanned and a non-empty `found` is
returned at once; exhaustion returns the empty dict. -/
def videosLoop (snapshot : JVal) (requested : List Nat) :
    List (List String) → List (Nat × Int) → List (Nat × Int) × List Effect
  | [], _ => ([], [])
  | path :: rest, found =>
      match getFromLocalCache snapshot path with
      | some (JVal.arr a) =>
          if (scanArr a requested found).isEmpty then
            ((videosLoop snapshot requested rest (scanArr a requested found)).1,
             Effect.localLookup path ::
               (videosLoop snapshot requested rest (scanArr a requested found)).2)
          else (scanArr a requested found, [Effect.localLookup path])
      | _ =>
          ((videosLoop snapshot requested rest found).1,
           Effect.localLookup path :: (videosLoop snapshot requested rest found).2)

/-- `get_cached_playlist_videos(playlist_url, quality_key, requested_indices)`
(cache_db.py lines 270-324): an empty quality key short-circuits to the empty
dict before any URL or cache work; otherwise the (URL-form, quality-candidate)
pairs are probed in order. -/
def get_cached_playlist_videos (env : UrlEnv) (snapshot : JVal)
    (url quality : String) (requested : List Nat) :
    List (Nat × Int) × List Effect :=
  if quality = "" then ([], [])
  else
    ((videosLoop snapshot requested (playlistProbePaths env url quality) []).1,
     canonEffects (playlistUrlForms env url) ++
       (videosLoop snapshot requested (playlistProbePaths env url quality) []).2)

/-! ## Playlist save -/

/-- Python `str.strip()`: drop whitespace from both ends. -/
def pyStrip (s : String) : String :=
  String.mk (((s.toList.dropWhile Char.isWhitespace).reverse.dropWhile
    Char.isWhitespace).reverse)

/-- Python truthiness of an `Optional` lookup result (`if already_cached:`
where `already_cached` may be `None`). -/
def optTruthy : Option JVal → Bool
  | some v => jTruthy v
  | none => false

/-- The pair loop of `save_to_playlist_cache` (lines 249-260): one remote
write per `zip(video_indices, message_ids)` pair at
`<PLAYLIST_CACHE_DB_PATH>/<hash>/<quality>/<index>`, skipped when the local
snapshot already holds a truthy value at
`bot/video_cache/playlists/<hash>/<quality>/<index>`. -/
def playlistPairWrites (snapshot : JVal) (plPath hash quality : String) :
    List (Nat × Int) → List Effect
  | [] => []
  | (i, m) :: rest =>
      let localPath := ["bot", "video_cache", "playlists", hash, quality, toString i]
      let look := Effect.localLookup localPath
      if optTruthy (getFromLocalCache snapshot localPath) then
        look :: playlistPairWrites snapshot plPath hash quality rest
      else
        look :: Effect.remoteSet [plPath, hash, quality, toString i] (toString m) ::
          playlistPairWrites snapshot plPath hash quality rest

/-- The per-URL-form body of `save_to_playlist_cache` (lines 236-260):
clear mode removes the `<quality>` subtree; otherwise empty ids or indices
skip the form, and the pair loop runs. -/
def savePlaylistPerUrl (snapshot : JVal) (plPath quality : String) (clear : Bool)
    (indices : List Nat) (messageIds : List Int) (hash : String) : List Effect :=
  if clear then [Effect.remoteRemove [plPath, hash, quality]]
  else if messageIds.isEmpty || indices.isEmpty then []
  else playlistPairWrites snapshot plPath hash quality (indices.zip messageIds)

/-- `save_to_playlist_cache(playlist_url, quality_key, video_indices,
message_ids, clear)` (cache_db.py lines 213-267).  The configured remote root
is `Option`-valued (`hasattr` guard); an empty quality key, a missing
configuration attribute, or a root whose strip is `""`, `"/"` or `"."`
aborts before any URL work. -/
def save_to_playlist_cache (env : UrlEnv) (cfg : Option String) (snapshot : JVal)
    (url quality : String) (indices : List Nat) (messageIds : List Int)
    (clear : Bool) : List Effect :=
  if quality = "" then []
  else
    match cfg with
    | none => []
    | some plPath =>
        if plPath = "" ∨ pyStrip plPath = "" ∨ pyStrip plPath = "/" ∨ pyStrip plPath = "."
        then []
        else
          canonEffects (playlistUrlForms env url) ++
            (playlistUrlForms env url).flatMap
              (fun u =>
                savePlaylistPerUrl snapshot plPath quality clear indices messageIds
                  (env.urlHash u))

/-! ## Video save -/

/-- The external subtitle-policy predicates consulted by
`save_to_video_cache` (module `COMMANDS.subtitles_cmd`, outside this core):
`check_subs_availability(url, user_id, quality_key, return_type=True)`,
`is_subs_enabled(user_id)` and `get_user_subs_auto_mode(user_id)`. -/
structure SubsEnv where
  checkSubs : String → Nat → String → Option String
  subsEnabled : Nat → Bool
  autoMode : Nat → Bool

/-- `need_subs` (cache_db.py line 448): subtitles are enabled and the found
type matches the user's auto/normal mode. -/
def needSubs (subs : SubsEnv) (url quality : String) (uid : Nat) : Bool :=
  subs.subsEnabled uid &&
    ((subs.autoMode uid && subs.checkSubs url uid quality == some "auto") ||
     (!subs.autoMode uid && subs.checkSubs url uid quality == some "normal"))

/-- The per-URL-form body of `save_to_video_cache` (lines 473-502): clear
mode removes the quality record; empty ids skip the form; otherwise the form
is skipped exactly when the local snapshot holds *any* value (`is not None`)
at `bot/video_cache/playlists/<hash>/<quality>` — note the `"playlists"`
segment, taken verbatim from `path_parts_local` at line 475 — and the write
stores a single id as itself, several ids comma-joined. -/
def saveVideoPerUrl (snapshot : JVal) (vcPath quality : String) (clear : Bool)
    (messageIds : List Int) (hash : String) : List Effect :=
  if clear then [Effect.remoteRemove [vcPath, hash, quality]]
  else if messageIds.isEmpty then []
  else
    let localPath := ["bot", "video_cache", "playlists", hash, quality]
    let look := Effect.localLookup localPath
    match getFromLocalCache snapshot localPath with
    | some _ => [look]
    | none =>
        let value :=
          match messageIds with
          | [m] => toString m
          | _ => String.intercalate "," (messageIds.map toString)
        [look, Effect.remoteSet [vcPath, hash, quality] value]

/-- `save_to_video_cache(url, quality_key, message_ids, clear, original_text,
user_id)` (cache_db.py lines 441-505): in order, the subtitle-policy guard
(only when a user id is supplied), the empty-quality guard and the
ranged-playlist guard each return before any URL canonicalization; then the
per-URL-form body runs over the deduplicated forms. -/
def save_to_video_cache (env : UrlEnv) (subs : SubsEnv)
    (isPlaylistWithRange : String → Bool) (vcPath : String) (snapshot : JVal)
    (url quality : String) (messageIds : List Int) (clear : Bool)
    (originalText : Option String) (userId : Option Nat) : List Effect :=
  if (match userId with
      | some uid => needSubs subs url quality uid
      | none => false) then []
  else if quality = "" then []
  else if (match originalText with
           | some t => !t.isEmpty && isPlaylistWithRange t
           | none => false) then []
  else
    canonEffects (videoUrlForms env url) ++
      (videoUrlForms env url).flatMap
        (fun u => saveVideoPerUrl snapshot vcPath quality clear messageIds (env.urlHash u))

/-! ## Message-ids read -/

/-- The per-URL-form loop of `get_cached_message_ids` (lines 523-539) over
the probed local paths `["bot", "video_cache", url_hash, quality_key]`: a
falsy value falls through to the next form; a non-empty string is split on
commas and each piece converted with `int` (a conversion failure escapes to
the outer handler, which returns `None`); a truthy non-string raises on
`.split` and likewise yields `None`. -/
def messageIdsLoop (snapshot : JVal) :
    List (List String) → Option (List Int) × List Effect
  | [] => (none, [])
  | path :: rest =>
      match getFromLocalCache snapshot path with
      | some (JVal.str s) =>
          if s.isEmpty then
            ((messageIdsLoop snapshot rest).1,
             Effect.localLookup path :: (messageIdsLoop snapshot rest).2)
          else
            match (s.splitOn ",").mapM parseIntStr with
            | some ids => (some ids, [Effect.localLookup path])
            | none => (none, [Effect.localLookup path])
      | some v =>
          if jTruthy v then (none, [Effect.localLookup path])
          else
            ((messageIdsLoop snapshot rest).1,
             Effect.localLookup path :: (messageIdsLoop snapshot rest).2)
      | none =>
          ((messageIdsLoop snapshot rest).1,
           Effect.localLookup path :: (messageIdsLoop snapshot rest).2)

/-- `get_cached_message_ids(url, quality_key)` (cache_db.py lines 508-543):
an empty quality key returns `None` before any URL or cache work. -/
def get_cached_message_ids (env : UrlEnv) (snapshot : JVal)
    (url quality : String) : Option (List Int) × List Effect :=
  if quality = "" then (none, [])
  else
    ((messageIdsLoop snapshot ((videoUrlForms env url).map
        (fun u => ["bot", "video_cache", env.urlHash u, quality]))).1,
     canonEffects (videoUrlForms env url) ++
       (messageIdsLoop snapshot ((videoUrlForms env url).map
         (fun u => ["bot", "video_cache", env.urlHash u, quality]))).2)

/-! ## Snapshot load and reload -/

/-- `load_firebase_cache()` (cache_db.py lines 31-45).  The file system and
the JSON parser (`json.load`) are abstract parameters.  The first component
is the Python return value: the function body contains no `return`
statement, so every path returns `None` (here `none`); a missing file or a
parse failure leaves the cache empty (`firebase_cache = {}`). -/
def load_firebase_cache (parse : String → Option JVal)
    (fs : String → Option String) (cacheFile : String) : Option Bool × JVal :=
  match fs cacheFile with
  | some content =>
      match parse content with
      | some j => (none, j)
      | none => (none, JVal.obj [])
  | none => (none, JVal.obj [])

/-- `reload_firebase_cache()` (cache_db.py lines 47-62): returns `True` after
a successful re-read, `False` when the file is missing or unreadable — in
the failure cases the previously loaded cache is left in place. -/
def reload_firebase_cache (parse : String → Option JVal)
    (fs : String → Option String) (cacheFile : String) (prev : JVal) :
    Option Bool × JVal :=
  match fs cacheFile with
  | some content =>
      match parse content with
      | some j => (some true, j)
      | none => (some false, prev)
  | none => (some false, prev)

/-! ## Reload scheduler state machine

The scheduler state of cache_db.py is the pair of module globals
`auto_cache_enabled` / `auto_cache_thread` (lines 26-27) plus the set of
reloader threads whose `auto_reload_firebase_cache` loop (lines 80-116) is
still running.  A live thread only terminates when one of its (at most
one-second-spaced) flag checks observes `auto_cache_enabled == False`; that
check is the `tick` action below.  `start_auto_cache_reloader` (118-131),
`stop_auto_cache_reloader` (133-139) and `toggle_auto_cache_reloader`
(141-149) translate directly. -/

structure SchedState where
  enabled : Bool
  registered : Option Nat
  live : List Nat
  nextId : Nat
deriving Repr, DecidableEq

/-- Process start: `auto_cache_enabled` defaults to the configured flag
(`True` by default), no thread object, no running reloader. -/
def schedInit (cfgEnabled : Bool) : SchedState :=
  { enabled := cfgEnabled, registered := none, live := [], nextId := 0 }

/-- `start_auto_cache_reloader`: spawns and registers a new reloader thread
only when the flag is set and no thread object is registered. -/
def schedStart (s : SchedState) : SchedState :=
  if s.enabled && s.registered.isNone then
    { enabled := s.enabled, registered := some s.nextId,
      live := s.live ++ [s.nextId], nextId := s.nextId + 1 }
  else s

/-- `stop_auto_cache_reloader`: clears the flag and forgets the thread
object; the thread itself is not joined and keeps running until its next
flag check. -/
def schedStop (s : SchedState) : SchedState :=
  { s with enabled := false, registered := none }

/-- `toggle_auto_cache_reloader`: flips the flag, then starts or stops. -/
def schedToggle (s : SchedState) : SchedState :=
  let s2 := { s with enabled := !s.enabled }
  if s2.enabled then schedStart s2 else schedStop s2

/-- One flag check by live reloader thread `t`: the thread exits (leaves
`live`) exactly when it observes the flag cleared; with the flag set it
continues its loop. -/
def schedTick (s : SchedState) (t : Nat) : SchedState :=
  if t ∈ s.live ∧ s.enabled = false then { s with live := s.live.erase t } else s

inductive SchedAct where
  | start : SchedAct
  | stop : SchedAct
  | toggle : SchedAct
  | tick : Nat → SchedAct

def schedStep (s : SchedState) : SchedAct → SchedState
  | .start => schedStart s
  | .stop => schedStop s
  | .toggle => schedToggle s
  | .tick t => schedTick s t

def schedRun (s : SchedState) : List SchedAct → SchedState
  | [] => s
  | a :: rest => schedRun (schedStep s a) rest

/-! ## Concrete instantiations used by witnesses -/

/-- A trivial URL environment: a non-YouTube URL family where
normalization, range stripping and key derivation are the identity. -/
def idUrlEnv : UrlEnv :=
  { normalize := id, stripRange := id, isYoutube := fun _ => false,
    toShort := id, toLong := id, urlHash := id }

/-- A subtitle policy that never excludes anything. -/
def noSubsEnv : SubsEnv :=
  { checkSubs := fun _ _ _ => none, subsEnabled := fun _ => false,
    autoMode := fun _ => false }

/-- A 100-entry playlist array with 60 cached entries and 40 holes. -/
def c2Arr : List JVal := List.replicate 60 (JVal.str "1") ++ List.replicate 40 JVal.null

/-- A 150-element requested-index list. -/
def c2Indices : List Nat := List.range 150

/-! ## Supporting lemmas -/

theorem le_ceil_to_popular (h : Nat) : h ≤ ceil_to_popular h := by
  unfold ceil_to_popular
  cases hf : popularBuckets.find? (fun b => h ≤ b) with
  | none => exact le_rfl
  | some b => simpa using List.find?_some hf

theorem fastPassCount_eq_slowPassCount (arr : List JVal) (indices : List Nat) :
    fastPassCount arr indices = slowPassCount arr indices := by
  induction indices with
  | nil => rfl
  | cons i rest ih =>
      simp only [fastPassCount, slowPassCount, List.countP_cons] at *
      split <;> simp_all
      omega

/-! ## Claims -/

/-- C3: `get_next_reload_time` returns the smallest multiple of the
N-hour interval past local midnight that is strictly after the current
instant; with a 4-hour interval, 05:31 maps to 08:00 and 23:59 to 00:00 of
the next day (86400000000 microseconds = next midnight). -/
theorem C3_next_reload_time (N μ : Nat) (hN : 0 < N) :
    get_next_reload_time N μ % (N * 3600 * 1000000) = 0 ∧
    μ < get_next_reload_time N μ ∧
    (∀ m, m % (N * 3600 * 1000000) = 0 → μ < m → get_next_reload_time N μ ≤ m) ∧
    get_next_reload_time 4 (hmMicros 5 31) = hmMicros 8 0 ∧
    get_next_reload_time 4 (hmMicros 23 59) = hmMicros 24 0 := by
  have hI : 0 < N * 3600 * 1000000 := by positivity
  set I := N * 3600 * 1000000 with hIdef
  refine ⟨Nat.mul_mod_left _ _, ?_, ?_, rfl, rfl⟩
  · show μ < (μ / I + 1) * I
    calc μ = I * (μ / I) + μ % I := (Nat.div_add_mod μ I).symm
         _ < I * (μ / I) + I := Nat.add_lt_add_left (Nat.mod_lt μ hI) _
         _ = (μ / I + 1) * I := by ring
  · intro m hm hlt
    show (μ / I + 1) * I ≤ m
    obtain ⟨k, hk⟩ : I ∣ m := Nat.dvd_of_mod_eq_zero hm
    subst hk
    have hdiv : μ / I < k := by
      rw [Nat.div_lt_iff_lt_mul hI]
      calc μ < I * k := hlt
           _ = k * I := Nat.mul_comm _ _
    calc (μ / I + 1) * I ≤ k * I := Nat.mul_le_mul_right _ hdiv
         _ = I * k := Nat.mul_comm _ _

/-- Witness for C3 at interval 4 hours and wall-clock 05:31. -/
theorem C3_next_reload_time_witness :
    0 < 4 ∧ get_next_reload_time 4 (hmMicros 5 31) = hmMicros 8 0 :=
  ⟨by decide, (C3_next_reload_time 4 (hmMicros 5 31) (by decide)).2.2.2.1⟩

/-- C2: The fast-path pass and the slow-path per-index pass of
`get_cached_playlist_count` compute the same integer on every playlist
array and requested-index list; in particular on a 100-entry array and a
150-element index list both logics yield 60. -/
theorem C2_fast_slow_equivalence :
    (∀ (arr : List JVal) (indices : List Nat),
        fastPassCount arr indices = slowPassCount arr indices) ∧
    c2Arr.length = 100 ∧ c2Indices.length = 150 ∧
    fastPassCount c2Arr c2Indices = slowPassCount c2Arr c2Indices ∧
    fastPassCount c2Arr c2Indices = 60 := by
  refine ⟨fastPassCount_eq_slowPassCount, by simp [c2Arr], by simp [c2Indices],
    fastPassCount_eq_slowPassCount _ _, by decide⟩

/-- C5: The quality-fallback candidate list used by the playlist cache
reads starts with the exact requested key and holds at most one further
candidate — the rounded-up popular bucket, only when different, and its
height never below the requested height; "703p" may fall back to "720p",
while "1080p" never tries "720p". -/
theorem C5_fallback_candidates :
    (∀ q, (qualityCandidates q).head? = some q) ∧
    (∀ q, (qualityCandidates q).length ≤ 2) ∧
    (∀ q r, r ∈ (qualityCandidates q).tail →
      r ≠ q ∧ ∃ h, parseHeight q = some h ∧
        r = toString (ceil_to_popular h) ++ "p" ∧ h ≤ ceil_to_popular h) ∧
    "720p" ∈ qualityCandidates "703p" ∧
    "720p" ∉ qualityCandidates "1080p" := by
  refine ⟨?_, ?_, ?_, by decide, by decide⟩
  · intro q
    unfold qualityCandidates
    cases parseHeight q with
    | none => rfl
    | some h => dsimp only; split <;> rfl
  · intro q
    unfold qualityCandidates
    cases parseHeight q with
    | none => simp
    | some h => dsimp only; split <;> simp
  · intro q r hr
    unfold qualityCandidates at hr
    cases hp : parseHeight q with
    | none => rw [hp] at hr; simp at hr
    | some h =>
        rw [hp] at hr
        dsimp only at hr
        split at hr
        · next hne =>
            simp only [List.tail_cons, List.mem_singleton] at hr
            subst hr
            exact ⟨hne, h, rfl, rfl, le_ceil_to_popular h⟩
        · simp at hr

/-- Witness for C5: the rounded bucket "720p" really is a further candidate
for "703p" and differs from it. -/
theorem C5_fallback_candidates_witness :
    "720p" ∈ (qualityCandidates "703p").tail ∧ "720p" ≠ "703p" :=
  ⟨by decide, (C5_fallback_candidates.2.2.1 "703p" "720p" (by decide)).1⟩

/-- C9: With an empty quality key both read operations return their miss
value immediately — `get_cached_message_ids` yields `None`,
`get_cached_playlist_videos` the empty dict — with an empty effect trace:
no local lookup, no canonicalization, no remote access. -/
theorem C9_empty_quality_reads (env : UrlEnv) (snapshot : JVal)
    (url : String) (requested : List Nat) :
    get_cached_message_ids env snapshot url "" = (none, []) ∧
    get_cached_playlist_videos env snapshot url "" requested = ([], []) := by
  constructor <;> simp [get_cached_message_ids, get_cached_playlist_videos]

/-- C6 (counterexample): On a missing snapshot file the load operation
does not return the boolean `false`: the body of `load_firebase_cache`
contains no `return` statement, so the call evaluates to `None`. -/
theorem C6_load_counterexample :
    (load_firebase_cache (fun _ => none) (fun _ => none) "firebase_cache.json").1
      ≠ some false := by
  simp [load_firebase_cache]

/-- C6 (amended): When the snapshot export file does not exist,
`load_firebase_cache` returns `None` — not the boolean `false`; the sibling
`reload_firebase_cache` is the operation that reports `False` — and leaves
the local cache as the empty object, on which every lookup with a non-empty
path returns the miss value rather than raising. -/
theorem C6_load_missing_file (parse : String → Option JVal)
    (fs : String → Option String) (cacheFile : String)
    (hmiss : fs cacheFile = none) :
    load_firebase_cache parse fs cacheFile = (none, JVal.obj []) ∧
    (∀ prev, (reload_firebase_cache parse fs cacheFile prev).1 = some false) ∧
    (∀ p ps, getFromLocalCache (load_firebase_cache parse fs cacheFile).2 (p :: ps)
      = none) := by
  unfold load_firebase_cache reload_firebase_cache
  rw [hmiss]
  exact ⟨rfl, fun prev => rfl, fun p ps => rfl⟩

/-- Witness for C6 (amended) on an always-missing file system. -/
theorem C6_load_missing_file_witness :
    (fun _ => (none : Option String)) "firebase_cache.json" = none ∧
    load_firebase_cache (fun _ => none) (fun _ => none) "firebase_cache.json"
      = (none, JVal.obj []) :=
  ⟨rfl, (C6_load_missing_file (fun _ => none) (fun _ => none) "firebase_cache.json" rfl).1⟩

/-- C8: The idempotence half of the claim holds — starting twice equals
starting once, stopping twice equals stopping once — but the at-most-one-
thread invariant does not: from the initial state (auto-cache enabled), the
sequence start; stop; toggle, with the first reloader thread getting no flag
check between the stop and the toggle, reaches a state with two live
reloader threads (the first can never again observe a cleared flag). -/
theorem C8_scheduler_threads :
    (∀ s, schedStart (schedStart s) = schedStart s) ∧
    (∀ s, schedStop (schedStop s) = schedStop s) ∧
    (schedRun (schedInit true) [SchedAct.start, SchedAct.stop, SchedAct.toggle]).live
      = [0, 1] := by
  refine ⟨?_, fun s => rfl, rfl⟩
  intro s
  by_cases h : (s.enabled && s.registered.isNone) = true
  · have h1 : schedStart s =
        ⟨s.enabled, some s.nextId, s.live ++ [s.nextId], s.nextId + 1⟩ := by
      unfold schedStart
      rw [if_pos h]
    rw [h1]
    unfold schedStart
    simp
  · have h1 : schedStart s = s := by
      unfold schedStart
      rw [if_neg h]
    rw [h1]
    exact h1

/-- The snapshot used to exhibit C1: the local mirror holds a video-cache
record at `bot/video_cache/u/720p` (CacheKey "u" under the identity key
deriver) and no playlist subtree. -/
def c1Snapshot : JVal :=
  JVal.obj [("bot", JVal.obj [("video_cache", JVal.obj
    [("u", JVal.obj [("720p", JVal.str "42")])])])]

/-- C1: `save_to_video_cache` does NOT skip the remote write when an
entry exists in the local mirror at the video-cache path
`bot/video_cache/<CacheKey>/<QualityKey>`: its duplicate-write guard reads
`bot/video_cache/playlists/<CacheKey>/<QualityKey>` (the playlist subtree,
`path_parts_local` at cache_db.py line 475) instead.  Here the video-cache
entry for key "u" at quality "720p" exists, yet the remote write proceeds. -/
theorem C1_save_checks_wrong_local_path :
    getFromLocalCache c1Snapshot ["bot", "video_cache", "u", "720p"]
      = some (JVal.str "42") ∧
    (save_to_video_cache idUrlEnv noSubsEnv (fun _ => false) "bot/video_cache"
        c1Snapshot "u" "720p" [5] false none none).filter Effect.isRemote
      = [Effect.remoteSet ["bot/video_cache", "u", "720p"] "5"] := by
  constructor
  · rfl
  · rfl

/-- C7: `save_to_video_cache` performs no effect at all — no URL
canonicalization, no local lookup, no remote access — whenever the quality
key is empty, or the subtitle-mode predicate excludes the item, or the
original request text is a non-empty playlist-with-range. -/
theorem C7_save_video_early_returns (env : UrlEnv) (subs : SubsEnv)
    (ipwr : String → Bool) (vcPath : String) (snapshot : JVal)
    (url quality : String) (messageIds : List Int) (clear : Bool)
    (originalText : Option String) (userId : Option Nat)
    (h : quality = "" ∨
         (∃ uid, userId = some uid ∧ needSubs subs url quality uid = true) ∨
         (∃ t, originalText = some t ∧ t ≠ "" ∧ ipwr t = true)) :
    save_to_video_cache env subs ipwr vcPath snapshot url quality messageIds
      clear originalText userId = [] := by
  rcases h with hq | ⟨uid, hu, hn⟩ | ⟨t, ht, hne, hp⟩
  · subst hq
    unfold save_to_video_cache
    simp
  · subst hu
    unfold save_to_video_cache
    simp [hn]
  · subst ht
    unfold save_to_video_cache
    have hE : t.isEmpty = false := by
      rcases hE2 : t.isEmpty with _ | _
      · rfl
      · exact absurd ((String.isEmpty_iff t).mp hE2) hne
    simp [hE, hp]

/-- Witness for C7: the spec's scenario `save(url, quality="",
identifiers=[1])` produces no effect. -/
theorem C7_save_video_early_returns_witness :
    save_to_video_cache idUrlEnv noSubsEnv (fun _ => false) "bot/video_cache"
      (JVal.obj []) "u" "" [1] false none none = [] :=
  C7_save_video_early_returns idUrlEnv noSubsEnv (fun _ => false) "bot/video_cache"
    (JVal.obj []) "u" "" [1] false none none (Or.inl rfl)

theorem canonEffects_filter_isRemote (urls : List String) :
    (canonEffects urls).filter Effect.isRemote = [] := by
  induction urls with
  | nil => rfl
  | cons u rest ih =>
      rw [canonEffects, List.map_cons, List.filter_cons]
      exact ih

theorem flatMap_filter_effects (p : Effect → Bool) (f : String → List Effect) :
    ∀ l : List String, (l.flatMap f).filter p = l.flatMap (fun u => (f u).filter p)
  | [] => rfl
  | u :: rest => by
      simp only [List.flatMap_cons, List.filter_append]
      rw [flatMap_filter_effects p f rest]

theorem playlistPairWrites_filter (snapshot : JVal) (plPath hash quality : String)
    (pairs : List (Nat × Int)) :
    (playlistPairWrites snapshot plPath hash quality pairs).filter Effect.isRemote =
      (pairs.filter (fun p => !optTruthy (getFromLocalCache snapshot
          ["bot", "video_cache", "playlists", hash, quality, toString p.1]))).map
        (fun p => Effect.remoteSet [plPath, hash, quality, toString p.1]
          (toString p.2)) := by
  induction pairs with
  | nil => rfl
  | cons pr rest ih =>
      obtain ⟨i, m⟩ := pr
      rw [playlistPairWrites]
      split
      · next h =>
          simp only [List.filter_cons, Effect.isRemote, List.map_cons, h,
            Bool.not_true, cond_false]
          exact ih
      · next h =>
          simp only [List.filter_cons, Effect.isRemote, List.map_cons,
            Bool.not_eq_true] at *
          simp [h, ih]

/-- C4: A non-clear `save_to_playlist_cache` call with non-empty quality,
indices and identifiers performs, per canonical URL form, exactly one remote
write per `zip(indices, identifiers)` pair at
`<PLAYLIST_CACHE_DB_PATH>/<CacheKey>/<QualityKey>/<index>`, and the write
for an index is skipped exactly when the local mirror already holds a
non-empty (truthy) value for that index under that key and quality. -/
theorem C4_save_playlist_writes (env : UrlEnv) (plPath : String) (snapshot : JVal)
    (url quality : String) (indices : List Nat) (messageIds : List Int)
    (hq : quality ≠ "")
    (hpath : ¬(plPath = "" ∨ pyStrip plPath = "" ∨ pyStrip plPath = "/" ∨ pyStrip plPath = "."))
    (hind : indices ≠ []) (hmsg : messageIds ≠ []) :
    (save_to_playlist_cache env (some plPath) snapshot url quality indices
        messageIds false).filter Effect.isRemote
      = (playlistUrlForms env url).flatMap (fun u =>
          ((indices.zip messageIds).filter (fun p =>
              !optTruthy (getFromLocalCache snapshot
                ["bot", "video_cache", "playlists", env.urlHash u, quality,
                  toString p.1]))).map
            (fun p => Effect.remoteSet
              [plPath, env.urlHash u, quality, toString p.1] (toString p.2))) := by
  unfold save_to_playlist_cache
  dsimp only
  rw [if_neg hq, if_neg hpath, List.filter_append, canonEffects_filter_isRemote,
    List.nil_append, flatMap_filter_effects]
  congr 1
  funext u
  unfold savePlaylistPerUrl
  have hmsgE : messageIds.isEmpty = false := by simp [List.isEmpty_iff, hmsg]
  have hindE : indices.isEmpty = false := by simp [List.isEmpty_iff, hind]
  simp only [Bool.false_eq_true, if_false, hmsgE, hindE, Bool.or_self]
  exact playlistPairWrites_filter snapshot plPath (env.urlHash u) quality
    (indices.zip messageIds)

/-- The snapshot used by the C4 witness: index 1 of playlist key "u" at
quality "720p" is already cached locally, index 2 is not. -/
def c4Snapshot : JVal :=
  JVal.obj [("bot", JVal.obj [("video_cache", JVal.obj [("playlists", JVal.obj
    [("u", JVal.obj [("720p", JVal.obj [("1", JVal.str "9")])])])])])]

/-- Witness for C4: with indices `[1, 2]` and identifiers `[100, 200]`, only
index 2 is written (index 1 is already in the local mirror). -/
theorem C4_save_playlist_writes_witness :
    ("720p" : String) ≠ "" ∧
    ¬(("plcache" : String) = "" ∨ pyStrip "plcache" = "" ∨
      pyStrip "plcache" = "/" ∨ pyStrip "plcache" = ".") ∧
    ([1, 2] : List Nat) ≠ [] ∧ ([100, 200] : List Int) ≠ [] ∧
    (save_to_playlist_cache idUrlEnv (some "plcache") c4Snapshot "u" "720p"
        [1, 2] [100, 200] false).filter Effect.isRemote
      = [Effect.remoteSet ["plcache", "u", "720p", "2"] "200"] := by
  refine ⟨by decide, by decide, by decide, by decide, ?_⟩
  rw [C4_save_playlist_writes idUrlEnv "plcache" c4Snapshot "u" "720p" [1, 2]
    [100, 200] (by decide) (by decide) (by decide) (by decide)]
  rfl

theorem upsert_mem {m : List (Nat × Int)} {k i : Nat} {v w : Int}
    (h : (i, w) ∈ upsert m k v) : (i, w) ∈ m ∨ (i = k ∧ w = v) := by
  unfold upsert at h
  split at h
  · obtain ⟨p, hp, he⟩ := List.mem_map.mp h
    by_cases hk : (p.1 == k) = true
    · rw [if_pos hk] at he
      injection he with h1 h2
      exact Or.inr ⟨h1.symm, h2.symm⟩
    · rw [if_neg hk] at he
      exact Or.inl (he ▸ hp)
  · rcases List.mem_append.mp h with hm | hm
    · exact Or.inl hm
    · have h2 := List.mem_singleton.mp hm
      injection h2 with h3 h4
      exact Or.inr ⟨h3, h4⟩

theorem scanArr_mem (arr : List JVal) :
    ∀ (requested : List Nat) (found : List (Nat × Int)) (i : Nat) (v : Int),
      (i, v) ∈ scanArr arr requested found →
      (i, v) ∈ found ∨
        (i ∈ requested ∧ i < arr.length ∧
          jTruthy (arr.getD i JVal.null) = true ∧
          pyToInt (arr.getD i JVal.null) = some v)
  | [], found, i, v, h => Or.inl h
  | j :: rest, found, i, v, h => by
      rw [scanArr] at h
      rcases scanArr_mem arr rest _ i v h with h2 | h2
      · split at h2
        · next hcond =>
            split at h2
            · next w hw =>
                rcases upsert_mem h2 with h3 | ⟨h3, h4⟩
                · exact Or.inl h3
                · subst h3
                  subst h4
                  refine Or.inr ⟨List.mem_cons_self .., ?_, ?_, hw⟩
                  · exact of_decide_eq_true (Bool.and_elim_left hcond)
                  · exact Bool.and_elim_right hcond
            · exact Or.inl h2
        · exact Or.inl h2
      · exact Or.inr ⟨List.mem_cons_of_mem _ h2.1, h2.2⟩

theorem videosLoop_mem (snapshot : JVal) (requested : List Nat) :
    ∀ (paths : List (List String)) (found : List (Nat × Int)) (i : Nat) (v : Int),
      (i, v) ∈ (videosLoop snapshot requested paths found).1 →
      (i, v) ∈ found ∨
        (i ∈ requested ∧ ∃ arr path, path ∈ paths ∧
          getFromLocalCache snapshot path = some (JVal.arr arr) ∧
          i < arr.length ∧ jTruthy (arr.getD i JVal.null) = true ∧
          pyToInt (arr.getD i JVal.null) = some v)
  | [], found, i, v, h => by simp [videosLoop] at h
  | path :: rest, found, i, v, h => by
      rw [videosLoop] at h
      split at h
      · next a ha =>
          split at h
          · rcases videosLoop_mem snapshot requested rest _ i v h with h2 | h2
            · rcases scanArr_mem a requested found i v h2 with h3 | h3
              · exact Or.inl h3
              · exact Or.inr ⟨h3.1, a, path, List.mem_cons_self .., ha, h3.2⟩
            · obtain ⟨hi, arr2, path2, hp2, rest2⟩ := h2
              exact Or.inr ⟨hi, arr2, path2, List.mem_cons_of_mem _ hp2, rest2⟩
          · rcases scanArr_mem a requested found i v h with h3 | h3
            · exact Or.inl h3
            · exact Or.inr ⟨h3.1, a, path, List.mem_cons_self .., ha, h3.2⟩
      · rcases videosLoop_mem snapshot requested rest found i v h with h2 | h2
        · exact Or.inl h2
        · obtain ⟨hi, arr2, path2, hp2, rest2⟩ := h2
          exact Or.inr ⟨hi, arr2, path2, List.mem_cons_of_mem _ hp2, rest2⟩

/-- C10: Every binding of the dict returned by
`get_cached_playlist_videos` has a requested index as its key, and its value
is the integer parse of a non-empty in-bounds entry, at that index, of a
playlist array the call probed (some URL form, some quality candidate);
out-of-bounds, empty and unparseable entries never contribute. -/
theorem C10_playlist_videos_sound (env : UrlEnv) (snapshot : JVal)
    (url quality : String) (requested : List Nat) (i : Nat) (v : Int)
    (h : (i, v) ∈ (get_cached_playlist_videos env snapshot url quality requested).1) :
    i ∈ requested ∧ ∃ arr path, path ∈ playlistProbePaths env url quality ∧
      getFromLocalCache snapshot path = some (JVal.arr arr) ∧
      i < arr.length ∧ jTruthy (arr.getD i JVal.null) = true ∧
      pyToInt (arr.getD i JVal.null) = some v := by
  unfold get_cached_playlist_videos at h
  split at h
  · simp at h
  · rcases videosLoop_mem snapshot requested _ [] i v h with h2 | h2
    · simp at h2
    · exact h2

/-- The snapshot used by the C10 witness: playlist key "u" at quality
"720p" holds the one-entry array `["42"]`. -/
def c10Snapshot : JVal :=
  JVal.obj [("bot", JVal.obj [("video_cache", JVal.obj [("playlists", JVal.obj
    [("u", JVal.obj [("720p", JVal.arr [JVal.str "42"])])])])])]

/-- Witness for C10: requesting index 0 yields the binding `(0, 42)`, whose
index is requested and whose value parses from the probed array entry. -/
theorem C10_playlist_videos_sound_witness :
    ((0 : Nat), (42 : Int)) ∈
      (get_cached_playlist_videos idUrlEnv c10Snapshot "u" "720p" [0]).1 ∧
    (0 : Nat) ∈ [0] :=
  ⟨by decide,
   (C10_playlist_videos_sound idUrlEnv c10Snapshot "u" "720p" [0] 0 42 (by decide)).1⟩

